import Mathlib

/-!
Verification of the "AI Markets" FastAPI service (src/app/main.py) against its
natural-language specification.

The service is a thin orchestration layer: four HTTP endpoints (crypto price,
stock price, forex price, chat) that call external providers.  We model it with
a shallow embedding:

* Python strings are Lean `String`s; the Python string methods used by the code
  (`upper`, `lower`, `strip`, `split`, `replace`, `join`) are re-implemented as
  executable functions over `String.data` (`py*` below) so that every
  definition kernel-reduces on concrete inputs.
* The outside world (CoinGecko, Stooq, exchangerate.host, OpenAI) is an
  `Upstream` oracle: one function per provider returning `Except String body`,
  where `Except.error` stands for any raised exception (connection error or
  `raise_for_status` on a non-2xx response) and the body is the parsed
  JSON/CSV payload.
* Process configuration (environment variables, success of the `openai`
  import) is an `AppConfig` value; the module-level globals `OPENAI_API_KEY`
  and `openai_client` become functions of it.
* Each endpoint returns `Except HErr α × List Call`: the HTTP-level outcome
  (`HErr` models `HTTPException(status, detail)` raised via `fail`) paired
  with the ordered list of outbound network requests the handler issued.
* Prices are `Rat` (the code performs no arithmetic on them, only formatting).
-/

namespace AIMarkets

/-! ### Python string primitives -/

/-- ASCII uppercase of one character, modelling Python `str.upper` on the
ASCII inputs this service handles (ticker symbols, fx pairs, coin ids). -/
def pyUpperChar (c : Char) : Char :=
  if 97 ≤ c.toNat ∧ c.toNat ≤ 122 then Char.ofNat (c.toNat - 32) else c

/-- ASCII lowercase of one character, modelling Python `str.lower`. -/
def pyLowerChar (c : Char) : Char :=
  if 65 ≤ c.toNat ∧ c.toNat ≤ 90 then Char.ofNat (c.toNat + 32) else c

/-- Map a function over the characters of a string. -/
def pyMapStr (f : Char → Char) (s : String) : String := ⟨s.data.map f⟩

/-- Python `str.upper` (ASCII fragment). -/
def pyUpper (s : String) : String := pyMapStr pyUpperChar s

/-- Python `str.lower` (ASCII fragment). -/
def pyLower (s : String) : String := pyMapStr pyLowerChar s

/-- Whitespace characters removed by Python `str.strip` (the common ones;
vertical tab and form feed never occur in this service's inputs). -/
def isPySpace (c : Char) : Bool := c = ' ' || c = '\t' || c = '\n' || c = '\r'

/-- Python `str.strip`: drop leading and trailing whitespace. -/
def pyStrip (s : String) : String :=
  ⟨((s.data.dropWhile isPySpace).reverse.dropWhile isPySpace).reverse⟩

/-- Helper for `pySplit`: accumulates the current segment (reversed). -/
def pySplitAux (sep : Char) : List Char → List Char → List String
  | [], cur => [⟨cur.reverse⟩]
  | c :: cs, cur =>
    if c = sep then (⟨cur.reverse⟩ : String) :: pySplitAux sep cs []
    else pySplitAux sep cs (c :: cur)

/-- Python `str.split(sep)` for a one-character separator; in particular
`pySplit "" ',' = [""]`, matching Python `"".split(",") == [""]`. -/
def pySplit (s : String) (sep : Char) : List String := pySplitAux sep s.data []

/-- Python `str.replace(c, "")` for a one-character pattern: remove every
occurrence (the code only uses `.replace("/", "")`). -/
def pyRemoveAll (s : String) (c : Char) : String := ⟨s.data.filter (fun d => d ≠ c)⟩

/-- Python `sep.join(xs)`. -/
def pyJoin (sep : String) : List String → String
  | [] => ""
  | [x] => x
  | x :: y :: xs => x ++ sep ++ pyJoin sep (y :: xs)

/-- Python `x or y` for strings: `y` when `x` is falsy (empty), else `x`. -/
def pyOrS (a b : String) : String := if a = "" then b else a

/-- Python `x or y` where `x` is `None`-or-string (e.g. an `os.getenv`
result): falsy means `None` or the empty string. -/
def pyOrStr (a b : Option String) : Option String :=
  match a with
  | some s => if s = "" then b else some s
  | none => b

/-- Python truthiness of a `None`-or-string value. -/
def pyTruthy (s : Option String) : Bool :=
  match s with
  | none => false
  | some v => if v = "" then false else true

/-- Digits-only string to a number (helper for `pyFloat`). -/
def digitsVal (cs : List Char) : Option Nat :=
  if cs.isEmpty then none
  else cs.foldl
    (fun acc c => acc.bind (fun n => if c.isDigit then some (n * 10 + (c.toNat - 48)) else none))
    (some 0)

/-- Python `float()` on the plain decimal strings Stooq emits in its close
column ("189.97", "190", "-1.5", ".5", "5."); any string outside this decimal
syntax yields `none`, modelling the `ValueError` that `float()` raises (the
exotic syntax `float()` additionally accepts — exponents, inf, nan — does not
occur in Stooq CSV and is irrelevant to every claim). -/
def pyFloat (s : String) : Option Rat :=
  let t := (pyStrip s).data
  match t with
  | '-' :: rest => (pyFloatBody rest).map (fun q => -q)
  | '+' :: rest => pyFloatBody rest
  | _ => pyFloatBody t
where
  pyFloatBody (body : List Char) : Option Rat :=
    match pySplitAux '.' body [] with
    | [i] => (digitsVal i.data).map (fun n => (n : Rat))
    | [i, f] =>
      if i.data.isEmpty && f.data.isEmpty then none
      else
        match (if i.data.isEmpty then some 0 else digitsVal i.data),
              (if f.data.isEmpty then some 0 else digitsVal f.data) with
        | some a, some b => some ((a : Rat) + (b : Rat) / (10 : Rat) ^ f.data.length)
        | _, _ => none
    | _ => none

/-- Rendering of a price as Python's f-string renders a float ("189.97",
"190.0").  Only the `contextLines` strings fed to the LLM depend on it, and no
claim depends on the digits it produces. -/
def showFloat (q : Rat) : String :=
  if q.den = 1 then q.num.repr ++ ".0"
  else
    match (List.range 31).find? (fun k => (q * (10 : Rat) ^ k).den = 1) with
    | some k =>
      let sign := if q < 0 then "-" else ""
      let m := (|q| * (10 : Rat) ^ k).num.toNat
      let fs := Nat.repr (m % 10 ^ k)
      let pad : String := ⟨List.replicate (k - fs.length) '0'⟩
      sign ++ Nat.repr (m / 10 ^ k) ++ "." ++ pad ++ fs
    | none => q.num.repr ++ "/" ++ q.den.repr

/-- Python f-string rendering of a price-or-`None` (`None` prints as "None"). -/
def showOptFloat : Option Rat → String
  | none => "None"
  | some q => showFloat q

/-! ### Data model -/

/-- An `HTTPException(status_code, detail)` raised through the `fail` helper
(src/app/main.py line 52). -/
structure HErr where
  status : Nat
  detail : String
deriving DecidableEq

/-- Payload of the `ok(...)` envelope returned by `/crypto/price/{coin_id}`:
either the price or `usd = None` with the "coin not found" note. -/
structure CryptoOk where
  id : String
  usd : Option Rat
  note : Option String
deriving DecidableEq

/-- Payload of the `ok(...)` envelope returned by `/stock/price/{ticker}`.
The found branch carries `source = "stooq"` and no note; the not-found branch
carries no source and `note = "not found"`. -/
structure StockOk where
  ticker : String
  price : Option Rat
  source : Option String
  note : Option String
deriving DecidableEq

/-- Payload of the `ok(...)` envelope returned by `/forex/price/{pair}`;
`rate` is `data.get("result")`, which may be absent. -/
structure FxOk where
  pair : String
  rate : Option Rat
deriving DecidableEq

/-- One outbound network request, tagged by provider and request parameters. -/
inductive Call where
  | coingecko (ids vs : String)
  | stooq (s i : String)
  | fxconvert (frm toc : String)
  | openai (model input : String)
deriving DecidableEq

/-- The external world: one oracle function per provider.  `Except.error msg`
models any exception out of `fetch_json`/`fetch_text` (connection failure,
timeout, or non-2xx status via `raise_for_status`); the success value is the
parsed body — for CoinGecko the id-to-usd-price mapping, for Stooq the parsed
CSV rows, for exchangerate.host the optional "result" field, and for OpenAI
the `output_text` of the response (missing attribute modelled as `""`). -/
structure Upstream where
  coingecko : String → Except String (List (String × Rat))
  stooq : String → Except String (List (List String))
  fxconvert : String → String → Except String (Option Rat)
  openai : String → Except String String

/-- Process-wide configuration read at import time: the environment, and
whether `from openai import OpenAI` succeeded (the `try`/`except` on
src/app/main.py lines 21-25). -/
structure AppConfig where
  env : String → Option String
  openaiImportOk : Bool

/-- The module global `OPENAI_API_KEY` (src/app/main.py lines 14-18): the
first truthy value among three environment variables, with Python `or`
semantics. -/
def OPENAI_API_KEY (cfg : AppConfig) : Option String :=
  pyOrStr (cfg.env "OPENAI_API_KEY") (pyOrStr (cfg.env "OPENAIKEY") (cfg.env "OPEN_AI_KEY"))

/-- Whether the module global `openai_client` is non-`None` (src/app/main.py
lines 21-25): the import must succeed and the key must be truthy. -/
def openai_client (cfg : AppConfig) : Bool :=
  cfg.openaiImportOk && pyTruthy (OPENAI_API_KEY cfg)

/-! ### Data endpoints -/

/-- GET `/crypto/price/{coin_id}` (src/app/main.py lines 80-95).  One
CoinGecko simple-price request; any exception becomes a 502 "coingecko error";
a successful body missing the id yields `usd = None` with note
"coin not found". -/
def crypto_price (_cfg : AppConfig) (coin_id : String) (u : Upstream) :
    Except HErr CryptoOk × List Call :=
  let cid := pyLower coin_id
  match u.coingecko cid with
  | Except.error e => (Except.error ⟨502, "coingecko error: " ++ e⟩, [Call.coingecko cid "usd"])
  | Except.ok data =>
    match data.lookup cid with
    | none => (Except.ok ⟨coin_id, none, some "coin not found"⟩, [Call.coingecko cid "usd"])
    | some p => (Except.ok ⟨coin_id, some p, none⟩, [Call.coingecko cid "usd"])

/-- Outcome of `/stock/price/{ticker}` given the Stooq response
(src/app/main.py lines 107-119): row 1 must exist and name the symbol, its
column 6 is the close; sentinel closes ("N/D", "N/A", "") give `price = None`;
a missing cell (`IndexError`) or unparsable close (`ValueError` from
`float()`) is caught by the handler's `except` and becomes a 502. -/
def stockResult (ticker sym : String) (resp : Except String (List (List String))) :
    Except HErr StockOk :=
  match resp with
  | Except.error e => Except.error ⟨502, "stooq error: " ++ e⟩
  | Except.ok rows =>
    match rows[1]? with
    | none => Except.ok ⟨pyUpper ticker, none, none, some "not found"⟩
    | some row1 =>
      match row1[0]? with
      | none => Except.error ⟨502, "stooq error: list index out of range"⟩
      | some c0 =>
        if pyUpper c0 = pyUpper sym then
          match row1[6]? with
          | none => Except.error ⟨502, "stooq error: list index out of range"⟩
          | some close_str =>
            if close_str = "N/D" ∨ close_str = "N/A" ∨ close_str = "" then
              Except.ok ⟨pyUpper ticker, none, some "stooq", none⟩
            else
              match pyFloat close_str with
              | none =>
                Except.error ⟨502, "stooq error: could not convert string to float: " ++ close_str⟩
              | some p => Except.ok ⟨pyUpper ticker, some p, some "stooq", none⟩
        else Except.ok ⟨pyUpper ticker, none, none, some "not found"⟩

/-- GET `/stock/price/{ticker}` (src/app/main.py lines 98-119): exactly one
Stooq daily-CSV request for `{TICKER}.US`, then `stockResult`. -/
def stock_price (_cfg : AppConfig) (ticker : String) (u : Upstream) :
    Except HErr StockOk × List Call :=
  let sym := pyUpper ticker ++ ".US"
  (stockResult ticker sym (u.stooq sym), [Call.stooq sym "d"])

/-- GET `/forex/price/{pair}` (src/app/main.py lines 122-139).  The pair is
uppercased, stripped, and de-slashed; a normalized length other than 6 fails
with 400 before any network request; otherwise one exchangerate.host convert
request is issued for the first three / last three characters. -/
def forex_price (_cfg : AppConfig) (pair0 : String) (u : Upstream) :
    Except HErr FxOk × List Call :=
  let pair := pyRemoveAll (pyStrip (pyUpper pair0)) '/'
  if pair.length ≠ 6 then
    (Except.error ⟨400, "pair must be like EURUSD"⟩, [])
  else
    let base : String := ⟨pair.data.take 3⟩
    let quo : String := ⟨pair.data.drop 3⟩
    match u.fxconvert base quo with
    | Except.error e => (Except.error ⟨502, "fx error: " ++ e⟩, [Call.fxconvert base quo])
    | Except.ok r => (Except.ok ⟨pair, r⟩, [Call.fxconvert base quo])

/-! ### Chat endpoint -/

/-- The system prompt constant (src/app/main.py lines 145-149). -/
def SYSTEM_PROMPT : String :=
  "You are an investment research assistant. Be helpful, concise, and neutral. " ++
  "You can discuss crypto, stocks, ETFs, forex and macro news. " ++
  "Always include a disclaimer that this is not financial advice."

/-- JSON body of POST `/chat`; absent keys are `none` (`payload.get` returns
`None`).  `news_limit` is declared by the endpoint but never read
("ignored for now"). -/
structure ChatPayload where
  question : Option String
  tickers : Option String
  coins : Option String
  news_limit : Option Nat
  lang : Option String
deriving DecidableEq

/-- `(payload.get("question") or "").strip()`. -/
def chatQuestion (p : ChatPayload) : String := pyStrip (p.question.getD "")

/-- The parsed ticker list: split the raw string on commas, drop blank
entries, strip and uppercase the rest (src/app/main.py line 176). -/
def chatTickers (p : ChatPayload) : List String :=
  let raw := pyStrip (p.tickers.getD "")
  ((pySplit raw ',').filter (fun t => pyStrip t ≠ "")).map (fun t => pyUpper (pyStrip t))

/-- The parsed coin list: like `chatTickers` but lowercased
(src/app/main.py line 177). -/
def chatCoins (p : ChatPayload) : List String :=
  let raw := pyStrip (p.coins.getD "")
  ((pySplit raw ',').filter (fun c => pyStrip c ≠ "")).map (fun c => pyLower (pyStrip c))

/-- `(payload.get("lang") or "en").strip()`. -/
def chatLang (p : ChatPayload) : String := pyStrip (pyOrS (p.lang.getD "") "en")

/-- One iteration of the stock loop (src/app/main.py lines 183-188): the
context line for ticker `t` (the price line on success of the awaited
`stock_price`, the "unavailable" line when it raised), with the network
requests it issued. -/
def stockLine (cfg : AppConfig) (u : Upstream) (t : String) : String × List Call :=
  match stock_price cfg t u with
  | (Except.ok d, cs) => ("Stock " ++ t ++ " price (stooq): " ++ showOptFloat d.price, cs)
  | (Except.error _, cs) => ("Stock " ++ t ++ " price: unavailable", cs)

/-- One iteration of the crypto loop (src/app/main.py lines 191-196). -/
def cryptoLine (cfg : AppConfig) (u : Upstream) (c : String) : String × List Call :=
  match crypto_price cfg c u with
  | (Except.ok d, cs) => ("Crypto " ++ c ++ " price (usd): " ++ showOptFloat d.usd, cs)
  | (Except.error _, cs) => ("Crypto " ++ c ++ " price: unavailable", cs)

/-- The `context_lines` accumulation (src/app/main.py lines 180-196): the
first eight tickers in order, then the first eight coins in order, with all
network requests in the same order. -/
def contextLines (cfg : AppConfig) (u : Upstream) (tickers coins : List String) :
    List String × List Call :=
  let ss := (tickers.take 8).map (stockLine cfg u)
  let cc := (coins.take 8).map (cryptoLine cfg u)
  (ss.map Prod.fst ++ cc.map Prod.fst, (ss.map Prod.snd).flatten ++ (cc.map Prod.snd).flatten)

/-- `"\n".join(context_lines) if context_lines else "No live prices fetched."`
(src/app/main.py line 198). -/
def contextOf (lines : List String) : String :=
  if lines.isEmpty then "No live prices fetched." else pyJoin "\n" lines

/-- The `user_prompt` template (src/app/main.py lines 200-207). -/
def chatUserPrompt (question lang context : String) : String :=
  "Language: " ++ lang ++ "\n" ++
  "User question: " ++ question ++ "\n\n" ++
  "Available live data:\n" ++ context ++ "\n\n" ++
  "Please provide a short, structured research answer with:\n" ++
  "- Key points\n- Pros & cons\n- Simple next steps or what to watch\n" ++
  "Finish with a disclaimer that this is educational research, not financial advice."

/-- The prompt `chat` sends to OpenAI for payload `p` under oracle `u`. -/
def chatPrompt (cfg : AppConfig) (p : ChatPayload) (u : Upstream) : String :=
  chatUserPrompt (chatQuestion p) (chatLang p)
    (contextOf (contextLines cfg u (chatTickers p) (chatCoins p)).fst)

/-- POST `/chat` (src/app/main.py lines 152-223).  Rejects with 400 when
`openai_client` is `None` (before touching the network) or when the stripped
question is empty; gathers price context for the first eight tickers and
coins, each lookup's failure caught and recorded as an "unavailable" line;
sends the prompt to OpenAI; a raised OpenAI call becomes a 502 "AI error",
and an empty `output_text` becomes the reply "No AI output.". -/
def chat (cfg : AppConfig) (p : ChatPayload) (u : Upstream) :
    Except HErr String × List Call :=
  if !(openai_client cfg) then
    (Except.error ⟨400, "AI is not configured (set OPENAI_API_KEY)."⟩, [])
  else if chatQuestion p = "" then
    (Except.error ⟨400, "question is required"⟩, [])
  else
    let calls := (contextLines cfg u (chatTickers p) (chatCoins p)).snd
    let user_prompt := chatPrompt cfg p u
    match u.openai user_prompt with
    | Except.error e =>
      (Except.error ⟨502, "AI error: " ++ e⟩, calls ++ [Call.openai "gpt-5-mini" user_prompt])
    | Except.ok out =>
      (Except.ok (if pyStrip out = "" then "No AI output." else pyStrip out),
        calls ++ [Call.openai "gpt-5-mini" user_prompt])

/-! ### Modelled news adapter -/

/-- A news headline as the specification's data model describes it. -/
structure Headline where
  title : String
  source_name : Option String
  url : Option String
  published_at : Option Nat
deriving DecidableEq

/-- Provider response for one topic: headlines, or a raised error. -/
def fetchedOrEmpty (fetch : String → String → Except String (List Headline))
    (lang t : String) : List Headline :=
  match fetch t lang with
  | Except.ok hs => hs
  | Except.error _ => []

/-- Modelled from the spec: the news adapter (`get_headlines`, spec section
4.3) is missing from src/app/main.py — the chat endpoint only declares a
`news_limit` payload field and documents it as "ignored for now".  Topic loop:
one provider call per topic in order, a failed topic contributes zero
headlines, accumulation stops once the limit is reached.  Returns the
headlines and the number of provider calls issued. -/
def getHeadlinesGo (fetch : String → String → Except String (List Headline)) (lang : String) :
    List String → Nat → List Headline × Nat
  | [], _ => ([], 0)
  | t :: ts, limit =>
    if limit = 0 then ([], 0)
    else
      ((fetchedOrEmpty fetch lang t).take limit ++
          (getHeadlinesGo fetch lang ts
            (limit - ((fetchedOrEmpty fetch lang t).take limit).length)).fst,
        (getHeadlinesGo fetch lang ts
          (limit - ((fetchedOrEmpty fetch lang t).take limit).length)).snd + 1)

/-- Modelled from the spec: `get_headlines(topics, limit, lang)` (spec section
4.3), with `limit = 0` short-circuiting to the empty result before any
network call. -/
def get_headlines (fetch : String → String → Except String (List Headline))
    (topics : List String) (limit : Nat) (lang : String) : List Headline × Nat :=
  if limit = 0 then ([], 0) else getHeadlinesGo fetch lang topics limit

/-! ### Concrete fixtures -/

/-- Whether an `Except` is a success. -/
def isOkE {ε α : Type} : Except ε α → Bool
  | Except.ok _ => true
  | Except.error _ => false

/-- Configuration with no environment variables set (no LLM credential). -/
def cfg0 : AppConfig := ⟨fun _ => none, true⟩

/-- Configuration with an OpenAI key configured. -/
def cfgOn : AppConfig := ⟨fun v => if v = "OPENAI_API_KEY" then some "test-key" else none, true⟩

/-- Oracle where every price provider is down but OpenAI answers "text". -/
def uAllDown : Upstream :=
  ⟨fun _ => Except.error "down", fun _ => Except.error "down",
   fun _ _ => Except.error "down", fun _ => Except.ok "text"⟩

/-- Oracle where every provider including OpenAI raises "boom". -/
def uLLMDown : Upstream :=
  ⟨fun _ => Except.error "boom", fun _ => Except.error "boom",
   fun _ _ => Except.error "boom", fun _ => Except.error "boom"⟩

/-- Oracle where every provider including OpenAI raises "down". -/
def uLLMDown2 : Upstream :=
  ⟨fun _ => Except.error "down", fun _ => Except.error "down",
   fun _ _ => Except.error "down", fun _ => Except.error "down"⟩

/-- Oracle where only the fx convert endpoint works, returning rate 2. -/
def uFxOk : Upstream :=
  ⟨fun _ => Except.error "down", fun _ => Except.error "down",
   fun _ _ => Except.ok (some 2), fun _ => Except.ok "text"⟩

/-- Oracle whose CoinGecko knows only bitcoin. -/
def uCG : Upstream :=
  ⟨fun _ => Except.ok [("bitcoin", 5)], fun _ => Except.error "down",
   fun _ _ => Except.error "down", fun _ => Except.ok "text"⟩

/-- Oracle whose Stooq returns a header row only (no data row). -/
def uHeaderOnly : Upstream :=
  ⟨fun _ => Except.error "down",
   fun _ => Except.ok [["Symbol", "Date", "Time", "Open", "High", "Low", "Close", "Volume"]],
   fun _ _ => Except.error "down", fun _ => Except.ok "text"⟩

/-- Oracle whose Stooq returns an empty CSV. -/
def uEmptyRows : Upstream :=
  ⟨fun _ => Except.error "down", fun _ => Except.ok [],
   fun _ _ => Except.error "down", fun _ => Except.ok "text"⟩

/-- Payload with only a question. -/
def pQ : ChatPayload := ⟨some "hi", none, none, none, none⟩

/-- Payload with a question, one ticker, and one coin. -/
def pC : ChatPayload := ⟨some "hi", some "AAPL", some "bitcoin", none, none⟩

/-! ### C2: forex input validation -/

/-- C2 counterexample: the claim says every normalized symbol that is not
exactly 6 *alphabetic* characters is rejected locally with the 400 error, but
"EUR123" — six characters, not all alphabetic — passes validation, reaches
the network, and succeeds. -/
theorem forex_nonalpha_counterexample :
    ¬("EUR123".data.all Char.isAlpha = true) ∧
    forex_price cfg0 "EUR123" uFxOk =
      (Except.ok ⟨"EUR123", some 2⟩, [Call.fxconvert "EUR" "123"]) := by
  exact ⟨by decide, rfl⟩

/-- C2 (amended): for every input whose normalized symbol (uppercased,
stripped, slashes removed) does not have length exactly 6, `forex_price`
fails with the 400 "pair must be like EURUSD" error and issues no network
call; only the length is checked, not that the characters are alphabetic. -/
theorem forex_length_check_local (cfg : AppConfig) (pair : String) (u : Upstream)
    (h : (pyRemoveAll (pyStrip (pyUpper pair)) '/').length ≠ 6) :
    forex_price cfg pair u = (Except.error ⟨400, "pair must be like EURUSD"⟩, []) := by
  simp only [forex_price, if_pos h]

/-- C2 witness: the 5-character pair "EURUS" is rejected locally. -/
theorem forex_length_check_local_witness :
    forex_price cfg0 "EURUS" uFxOk = (Except.error ⟨400, "pair must be like EURUSD"⟩, []) :=
  forex_length_check_local cfg0 "EURUS" uFxOk (by decide)

/-! ### C4: equity quote retrieval -/

/-- C4 counterexample: the claim says an empty first tier triggers a fallback
lookup and, with both tiers empty, a `QuoteNotFound` failure; but on a Stooq
response with no data row the handler issues exactly one network request (no
second tier exists) and returns success with `price = None` and a
"not found" note instead of failing. -/
theorem stock_single_tier_counterexample :
    stock_price cfg0 "AAPL" uHeaderOnly =
      (Except.ok ⟨"AAPL", none, none, some "not found"⟩, [Call.stooq "AAPL.US" "d"]) := rfl

/-- C4 (amended): `stock_price` performs a single Stooq daily-CSV lookup —
always exactly one network request, no two-tier fallback; a transport error
fails with the 502 "stooq error" (ProviderUnavailable-style); a response with
no data row yields success with `price = None` and note "not found" rather
than a `QuoteNotFound` failure. -/
theorem stock_single_fetch_behavior (cfg : AppConfig) (t : String) (u : Upstream) :
    (stock_price cfg t u).snd = [Call.stooq (pyUpper t ++ ".US") "d"] ∧
    (∀ e, u.stooq (pyUpper t ++ ".US") = Except.error e →
      (stock_price cfg t u).fst = Except.error ⟨502, "stooq error: " ++ e⟩) ∧
    (∀ rows, u.stooq (pyUpper t ++ ".US") = Except.ok rows → rows.length ≤ 1 →
      (stock_price cfg t u).fst = Except.ok ⟨pyUpper t, none, none, some "not found"⟩) := by
  refine ⟨rfl, ?_, ?_⟩
  · intro e he
    simp [stock_price, stockResult, he]
  · intro rows hr hlen
    have h1 : rows[1]? = none := List.getElem?_eq_none hlen
    simp [stock_price, stockResult, hr, h1]

/-- C4 witness: a provider outage gives the 502, and an empty CSV gives the
degraded `price = None` success. -/
theorem stock_single_fetch_behavior_witness :
    (stock_price cfg0 "aapl" uAllDown).fst = Except.error ⟨502, "stooq error: down"⟩ ∧
    (stock_price cfg0 "msft" uEmptyRows).fst = Except.ok ⟨"MSFT", none, none, some "not found"⟩ :=
  ⟨(stock_single_fetch_behavior cfg0 "aapl" uAllDown).2.1 "down" rfl,
   (stock_single_fetch_behavior cfg0 "msft" uEmptyRows).2.2 [] rfl (by decide)⟩

/-! ### C7: missing LLM credential -/

/-- C7: when no LLM credential is configured (the three environment variables
are all falsy), `chat` fails immediately with the 400
"AI is not configured" error by a purely local check, and the call list is
empty — no request to OpenAI nor to any price provider is attempted. -/
theorem chat_unconfigured_local_reject (cfg : AppConfig) (p : ChatPayload) (u : Upstream)
    (hk : pyTruthy (OPENAI_API_KEY cfg) = false) :
    chat cfg p u = (Except.error ⟨400, "AI is not configured (set OPENAI_API_KEY)."⟩, []) := by
  have hc : openai_client cfg = false := by
    simp [openai_client, hk]
  simp [chat, hc]

/-- C7 witness: with an empty environment, any chat request is rejected
locally with zero outbound calls. -/
theorem chat_unconfigured_local_reject_witness :
    chat cfg0 pQ uAllDown = (Except.error ⟨400, "AI is not configured (set OPENAI_API_KEY)."⟩, []) :=
  chat_unconfigured_local_reject cfg0 pQ uAllDown rfl

/-! ### C9: market data independent of the LLM credential -/

/-- C9: the three market-data endpoints compute identical results under any
two configurations — in particular under one with and one without the OpenAI
credential; only `chat` reads `openai_client`. -/
theorem market_endpoints_credential_independent (cfg cfg' : AppConfig)
    (cid t pr : String) (u : Upstream) :
    crypto_price cfg cid u = crypto_price cfg' cid u ∧
    stock_price cfg t u = stock_price cfg' t u ∧
    forex_price cfg pr u = forex_price cfg' pr u :=
  ⟨rfl, rfl, rfl⟩

/-! ### C10: at most the first eight tickers and coins -/

/-- C10: the live-price context of a chat request is computed from at most
the first eight tickers and the first eight coins — truncating both lists to
eight changes nothing (lines nor network calls), and the number of context
lines is `min 8 tickers + min 8 coins`. -/
theorem chat_context_first_eight (cfg : AppConfig) (u : Upstream) (tickers coins : List String) :
    contextLines cfg u tickers coins = contextLines cfg u (tickers.take 8) (coins.take 8) ∧
    (contextLines cfg u tickers coins).fst.length =
      min 8 tickers.length + min 8 coins.length := by
  constructor
  · simp [contextLines, List.take_take]
  · simp [contextLines]

/-! ### C1: degradation of the aggregation path -/

/-- C1 counterexample: with every upstream price lookup failing (Stooq and
CoinGecko both down) the chat aggregation path does not fail — there is no
`AllProvidersUnavailable` — it returns the LLM reply built over "unavailable"
context lines. -/
theorem chat_all_providers_down_counterexample :
    (chat cfgOn pC uAllDown).fst = Except.ok "text" ∧
    (stock_price cfgOn "AAPL" uAllDown).fst = Except.error ⟨502, "stooq error: down"⟩ ∧
    (crypto_price cfgOn "bitcoin" uAllDown).fst = Except.error ⟨502, "coingecko error: down"⟩ :=
  ⟨rfl, rfl, rfl⟩

/-- C1 (amended): each upstream price-lookup failure is caught locally and
recorded as an "unavailable" context line, and the chat path never fails
because of upstream price outages — even when every lookup fails.  No
`AllProvidersUnavailable` error exists: whenever the client is configured,
the question non-empty, and the LLM call itself succeeds, `chat` succeeds,
for every pattern of price-provider failures. -/
theorem chat_never_fails_on_price_outages (cfg : AppConfig) (p : ChatPayload) (u : Upstream)
    (hc : openai_client cfg = true)
    (hq : chatQuestion p ≠ "")
    (hllm : ∀ s, isOkE (u.openai s) = true) :
    isOkE (chat cfg p u).fst = true := by
  have h1 := hllm (chatPrompt cfg p u)
  cases ho : u.openai (chatPrompt cfg p u) with
  | error e => rw [ho] at h1; simp [isOkE] at h1
  | ok out => simp [chat, hc, hq, ho, isOkE]

/-- C1 witness: all price providers down, LLM up — chat succeeds. -/
theorem chat_never_fails_on_price_outages_witness :
    isOkE (chat cfgOn pC uAllDown).fst = true :=
  chat_never_fails_on_price_outages cfgOn pC uAllDown rfl (by decide) (fun _ => rfl)

/-! ### C3: crypto price errors versus absent ids -/

/-- C3: `crypto_price` succeeds exactly when the CoinGecko request succeeds;
a provider failure surfaces as the 502 "coingecko error" (never a silent
`None`); and a returned `usd = None` happens precisely when the provider
responded successfully but its mapping lacks the requested id (explicit "not
found"). -/
theorem crypto_none_only_on_not_found (cfg : AppConfig) (cid : String) (u : Upstream) :
    isOkE (crypto_price cfg cid u).fst = isOkE (u.coingecko (pyLower cid)) ∧
    (∀ e, u.coingecko (pyLower cid) = Except.error e →
      (crypto_price cfg cid u).fst = Except.error ⟨502, "coingecko error: " ++ e⟩) ∧
    (∀ q, (crypto_price cfg cid u).fst = Except.ok q →
      (q.usd = none ↔
        ∃ data, u.coingecko (pyLower cid) = Except.ok data ∧
          data.lookup (pyLower cid) = none)) := by
  cases h : u.coingecko (pyLower cid) with
  | error e =>
    refine ⟨by simp [crypto_price, h, isOkE], ?_, ?_⟩
    · intro e' he
      cases he
      simp [crypto_price, h]
    · intro q hq
      simp [crypto_price, h] at hq
  | ok data =>
    cases hl : data.lookup (pyLower cid) with
    | none =>
      refine ⟨by simp [crypto_price, h, hl, isOkE], ?_, ?_⟩
      · intro e' he
        cases he
      · intro q hq
        have h2 : (crypto_price cfg cid u).fst =
            Except.ok ⟨cid, none, some "coin not found"⟩ := by
          simp [crypto_price, h, hl]
        rw [hq] at h2
        have hq' : q = ⟨cid, none, some "coin not found"⟩ := Except.ok.inj h2
        subst hq'
        exact ⟨fun _ => ⟨data, rfl, hl⟩, fun _ => rfl⟩
    | some pr =>
      refine ⟨by simp [crypto_price, h, hl, isOkE], ?_, ?_⟩
      · intro e' he
        cases he
      · intro q hq
        have h2 : (crypto_price cfg cid u).fst = Except.ok ⟨cid, some pr, none⟩ := by
          simp [crypto_price, h, hl]
        rw [hq] at h2
        have hq' : q = ⟨cid, some pr, none⟩ := Except.ok.inj h2
        subst hq'
        constructor
        · intro hnone
          cases hnone
        · intro hex
          obtain ⟨d, hd, hld⟩ := hex
          have hdd : data = d := Except.ok.inj hd
          subst hdd
          rw [hl] at hld
          cases hld

/-- C3 witness: a successful CoinGecko response that lacks the requested id
yields `usd = None`, and the theorem's characterization applies to it. -/
theorem crypto_none_only_on_not_found_witness :
    ((⟨"ripple", none, some "coin not found"⟩ : CryptoOk).usd = none ↔
      ∃ data, uCG.coingecko (pyLower "ripple") = Except.ok data ∧
        data.lookup (pyLower "ripple") = none) :=
  (crypto_none_only_on_not_found cfg0 "ripple" uCG).2.2
    ⟨"ripple", none, some "coin not found"⟩ rfl

/-! ### C5: context ordering equals request ordering -/

/-- Helper: indexing into the per-item lines of a truncated mapped list. -/
theorem mapTake_getElem (f : String → String × List Call) (l : List String) (i : Nat)
    (h : i < min 8 l.length) :
    (((l.take 8).map f).map Prod.fst)[i]? = (l[i]?).map (fun t => (f t).fst) := by
  have h8 : i < 8 := lt_of_lt_of_le h (min_le_left _ _)
  simp only [List.getElem?_map, List.getElem?_take_of_lt h8, Option.map_map]
  rfl

/-- C5: the context lines are ordered by the request — for every valid index
`i`, the `i`-th line is the line for the `i`-th requested ticker, and after
all ticker lines the `j`-th coin line is the line for the `j`-th requested
coin; the result is a pure function of the request and the oracle, so it is
deterministic for identical inputs. -/
theorem chat_context_request_order (cfg : AppConfig) (u : Upstream)
    (tickers coins : List String) :
    (∀ i, i < min 8 tickers.length →
      (contextLines cfg u tickers coins).fst[i]? =
        (tickers[i]?).map (fun t => (stockLine cfg u t).fst)) ∧
    (∀ j, j < min 8 coins.length →
      (contextLines cfg u tickers coins).fst[min 8 tickers.length + j]? =
        (coins[j]?).map (fun c => (cryptoLine cfg u c).fst)) := by
  have hlen : (((tickers.take 8).map (stockLine cfg u)).map Prod.fst).length =
      min 8 tickers.length := by
    simp
  constructor
  · intro i hi
    show (((tickers.take 8).map (stockLine cfg u)).map Prod.fst ++
        ((coins.take 8).map (cryptoLine cfg u)).map Prod.fst)[i]? = _
    rw [List.getElem?_append_left (by rw [hlen]; exact hi)]
    exact mapTake_getElem _ _ _ hi
  · intro j hj
    show (((tickers.take 8).map (stockLine cfg u)).map Prod.fst ++
        ((coins.take 8).map (cryptoLine cfg u)).map Prod.fst)[min 8 tickers.length + j]? = _
    rw [List.getElem?_append_right (by rw [hlen]; exact Nat.le_add_right _ _)]
    rw [hlen, Nat.add_sub_cancel_left]
    exact mapTake_getElem _ _ _ hj

/-- C5 witness: for tickers ["MSFT", "AAPL"], position 0 holds MSFT's line
and position 1 holds AAPL's line. -/
theorem chat_context_request_order_witness :
    (contextLines cfg0 uAllDown ["MSFT", "AAPL"] []).fst[0]? =
      ((["MSFT", "AAPL"] : List String)[0]?).map (fun t => (stockLine cfg0 uAllDown t).fst) ∧
    (contextLines cfg0 uAllDown ["MSFT", "AAPL"] []).fst[1]? =
      ((["MSFT", "AAPL"] : List String)[1]?).map (fun t => (stockLine cfg0 uAllDown t).fst) :=
  ⟨(chat_context_request_order cfg0 uAllDown ["MSFT", "AAPL"] []).1 0 (by decide),
   (chat_context_request_order cfg0 uAllDown ["MSFT", "AAPL"] []).1 1 (by decide)⟩

/-! ### C6: LLM failure handling -/

/-- C6 counterexample: when the OpenAI call raises, `chat` does not return a
degraded result — it fails with a 502 "AI error" (a 5xx `HTTPException`),
contradicting the claim that the advice path never responds with a 5xx. -/
theorem chat_llm_failure_counterexample :
    (chat cfgOn pQ uLLMDown).fst = Except.error ⟨502, "AI error: boom"⟩ := rfl

/-- C6 (amended): whenever the LLM call fails, `chat` fails with the handled
502 error whose detail is the descriptive string "AI error: " followed by the
exception text; it does not return a degraded result carrying the gathered
context. -/
theorem chat_llm_failure_returns_502 (cfg : AppConfig) (p : ChatPayload) (u : Upstream)
    (e : String)
    (hc : openai_client cfg = true)
    (hq : chatQuestion p ≠ "")
    (he : u.openai (chatPrompt cfg p u) = Except.error e) :
    (chat cfg p u).fst = Except.error ⟨502, "AI error: " ++ e⟩ := by
  simp [chat, hc, hq, he]

/-- C6 witness: a configured client, a non-empty question, and a raising LLM
produce the 502 "AI error: down". -/
theorem chat_llm_failure_returns_502_witness :
    (chat cfgOn pC uLLMDown2).fst = Except.error ⟨502, "AI error: down"⟩ :=
  chat_llm_failure_returns_502 cfgOn pC uLLMDown2 "down" rfl (by decide) rfl

/-! ### C8: headline limit (spec-modelled) -/

/-- Number of provider calls made by `getHeadlinesGo` at limit 0: none. -/
theorem getHeadlinesGo_zero (fetch : String → String → Except String (List Headline))
    (lang : String) (ts : List String) : getHeadlinesGo fetch lang ts 0 = ([], 0) := by
  cases ts <;> simp [getHeadlinesGo]

/-- The accumulated headline count never exceeds the limit. -/
theorem getHeadlinesGo_length_le (fetch : String → String → Except String (List Headline))
    (lang : String) : ∀ (ts : List String) (limit : Nat),
    (getHeadlinesGo fetch lang ts limit).fst.length ≤ limit := by
  intro ts
  induction ts with
  | nil => intro limit; simp [getHeadlinesGo]
  | cons t ts ih =>
    intro limit
    by_cases h0 : limit = 0
    · subst h0; simp [getHeadlinesGo]
    · simp only [getHeadlinesGo, if_neg h0, List.length_append]
      have hk : ((fetchedOrEmpty fetch lang t).take limit).length ≤ limit := by
        rw [List.length_take]; exact min_le_left _ _
      calc ((fetchedOrEmpty fetch lang t).take limit).length +
            (getHeadlinesGo fetch lang ts
              (limit - ((fetchedOrEmpty fetch lang t).take limit).length)).fst.length
          ≤ ((fetchedOrEmpty fetch lang t).take limit).length +
            (limit - ((fetchedOrEmpty fetch lang t).take limit).length) :=
            Nat.add_le_add_left (ih _) _
        _ = limit := Nat.add_sub_cancel' hk

/-- C8: `get_headlines` returns at most `limit` headlines; `limit = 0`
short-circuits to the empty sequence with zero provider calls; and once the
first topic alone satisfies the limit, no further provider call is made (one
call total), with the topics contributing in order. -/
theorem get_headlines_limit_spec (fetch : String → String → Except String (List Headline))
    (topics : List String) (limit : Nat) (lang : String) :
    (get_headlines fetch topics limit lang).fst.length ≤ limit ∧
    get_headlines fetch topics 0 lang = ([], 0) ∧
    (∀ t ts hs, fetch t lang = Except.ok hs → 0 < limit → limit ≤ hs.length →
      get_headlines fetch (t :: ts) limit lang = (hs.take limit, 1)) := by
  refine ⟨?_, by simp [get_headlines], ?_⟩
  · by_cases h0 : limit = 0
    · subst h0; simp [get_headlines]
    · simp only [get_headlines, if_neg h0]
      exact getHeadlinesGo_length_le fetch lang topics limit
  · intro t ts hs hf hpos hlen
    have h0 : limit ≠ 0 := Nat.pos_iff_ne_zero.mp hpos
    have hget : fetchedOrEmpty fetch lang t = hs := by simp [fetchedOrEmpty, hf]
    have htake : (hs.take limit).length = limit := by
      rw [List.length_take]; exact min_eq_left hlen
    simp only [get_headlines, if_neg h0, getHeadlinesGo, hget, htake, Nat.sub_self,
      getHeadlinesGo_zero]
    simp

/-- A sample headline for the C8 witness. -/
def hln (n : Nat) : Headline := ⟨"h" ++ Nat.repr n, none, none, none⟩

/-- A provider with four headlines for every topic. -/
def fetch4 : String → String → Except String (List Headline) :=
  fun _ _ => Except.ok [hln 1, hln 2, hln 3, hln 4]

/-- C8 witness: two topics, limit 3, four headlines available on the first
topic — exactly three headlines, one provider call. -/
theorem get_headlines_limit_spec_witness :
    get_headlines fetch4 ["AAPL", "MSFT"] 3 "en" = ([hln 1, hln 2, hln 3], 1) :=
  (get_headlines_limit_spec fetch4 ["AAPL", "MSFT"] 3 "en").2.2 "AAPL" ["MSFT"]
    [hln 1, hln 2, hln 3, hln 4] rfl (by decide) (by decide)

end AIMarkets
